import Mathlib

/-!
Shallow embedding of the authentication core of the `module_5-1` backend
(FastAPI user-registration and JWT authentication service).

Embedded source files:
  - `app/crud/user.py`        : bcrypt password hashing and user CRUD
  - `app/utils/auth.py`       : JWT issue / verify (python-jose)
  - `app/routers/auth.py`     : register and login handlers
  - `app/dependencies/auth.py`: `get_current_user` (bearer-token authentication)

External collaborators (the passlib bcrypt context, the python-jose JWT
codec, the SQLAlchemy store with its unique indexes, and the process
configuration) are modelled explicitly; time and bcrypt salt generation are
threaded as explicit parameters.  Timestamps are integer Unix seconds, the
granularity at which python-jose serializes the `exp` claim.
-/

namespace Module51

/-! ## Credential hasher (`app/crud/user.py`, passlib `CryptContext(schemes=["bcrypt"])`)

A bcrypt hash string is self-describing: it either parses as a bcrypt
record carrying its salt and digest, or it is unrecognizable.  We embed
hash strings as this parsed shape.  The bcrypt digest is modelled as a
deterministic function of the salt and of the first 72 bytes of the
password (bcrypt truncates the password at 72 bytes). -/

/-- Parsed shape of a password-hash string: a well-formed bcrypt record
(salt and digest embedded), or a string that no configured scheme
recognizes. -/
inductive HashStr where
  | bcrypt (salt : Nat) (digest : Nat)
  | malformed (raw : String)
  deriving DecidableEq, Repr

/-- Errors raised by the passlib context.  `CryptContext.verify` raises
`UnknownHashError` (a `ValueError`) when the hash string cannot be
identified as any configured scheme; the bcrypt handler raises
`NullPasswordError` (also a `ValueError`) from both `hash` and `verify`
when the secret contains a NUL byte. -/
inductive PasslibError where
  | unknownHashError
  | nullPasswordError
  deriving DecidableEq, Repr

/-- UTF-8 encoding of a string as a byte list. -/
def strBytes (s : String) : List UInt8 :=
  s.data.flatMap String.utf8EncodeChar

/-- Bytes of the password actually fed to bcrypt: UTF-8 encoding truncated
at 72 bytes. -/
def bcryptInput (password : String) : List UInt8 :=
  (strBytes password).take 72

/-- Whether the UTF-8 encoding of the secret contains a NUL byte — the
condition under which the passlib bcrypt handler refuses the secret. -/
def containsNul (s : String) : Bool :=
  (strBytes s).any (fun b => b == 0)

/-- Model of the bcrypt key-derivation output for a given salt and
password: a deterministic digest of the salt and the (truncated) password
bytes. -/
def bcryptDigest (salt : Nat) (password : String) : Nat :=
  (bcryptInput password).foldl (fun a b => a * 131 + b.toNat + 1) (salt * 257 + 1)

/-- `pwd_context.hash(password)`: the bcrypt handler raises
`NullPasswordError` when the secret contains a NUL byte; otherwise a fresh
salt (supplied explicitly by the caller, standing for the RNG) is embedded
together with the digest it produces. -/
def pwdContextHash (password : String) (salt : Nat) :
    Except PasslibError HashStr :=
  if containsNul password then Except.error PasslibError.nullPasswordError
  else Except.ok (HashStr.bcrypt salt (bcryptDigest salt password))

/-- `pwd_context.verify(plain, hash)`: the context first identifies the
hash, raising `UnknownHashError` when it is not recognizable as a
configured scheme; the bcrypt handler then raises `NullPasswordError` for
a secret containing a NUL byte, and otherwise re-derives the digest with
the salt embedded in the hash and compares. -/
def pwdContextVerify (plain : String) (h : HashStr) : Except PasslibError Bool :=
  match h with
  | HashStr.malformed _ => Except.error PasslibError.unknownHashError
  | HashStr.bcrypt salt digest =>
      if containsNul plain then Except.error PasslibError.nullPasswordError
      else Except.ok (bcryptDigest salt plain == digest)

/-- `get_password_hash` from `app/crud/user.py`: delegates to
`pwd_context.hash`, propagating whatever passlib raises. -/
def get_password_hash (password : String) (salt : Nat) :
    Except PasslibError HashStr :=
  pwdContextHash password salt

/-- `verify_password` from `app/crud/user.py`: delegates to
`pwd_context.verify`, propagating whatever passlib raises. -/
def verify_password (plain_password : String) (hashed_password : HashStr) :
    Except PasslibError Bool :=
  pwdContextVerify plain_password hashed_password

/-! ## Process configuration (`app/config.py`)

`app/config.py` is not part of the sources; the spec describes it as a
process configuration providing a signing key, a signing algorithm and a
token time-to-live in minutes. -/

/-- Modelled from the spec: `settings.SECRET_KEY`, the process-wide signing
key (`app/config.py` is absent from the sources). -/
def SECRET_KEY : String := "modelled-signing-key"

/-- Modelled from the spec: `settings.ALGORITHM`, the fixed signing
algorithm (`app/config.py` is absent from the sources). -/
def ALGORITHM : String := "HS256"

/-- Modelled from the spec: `settings.ACCESS_TOKEN_EXPIRE_MINUTES`, the
configured token time-to-live in minutes (`app/config.py` is absent from
the sources). -/
def ACCESS_TOKEN_EXPIRE_MINUTES : Nat := 30

/-! ## Token codec (`app/utils/auth.py`, python-jose)

JWT claim values relevant to this service: strings (`sub`), integers
(`exp`, since jose serializes datetimes as integer Unix seconds), and JSON
null.  A claims map is an association list with the replace-or-append
update of a Python dict. -/

/-- A JWT claim value: a JSON string, an integer timestamp, or null. -/
inductive ClaimVal where
  | str (s : String)
  | num (n : Int)
  | null
  deriving DecidableEq, Repr

/-- A JWT payload: a claims map, in insertion order. -/
def Claims : Type := List (String × ClaimVal)

instance : DecidableEq Claims := by
  unfold Claims
  infer_instance

instance : Repr Claims := by
  unfold Claims
  infer_instance

/-- Python dict lookup `payload.get(k)`: the value at the first occurrence
of the key, if any. -/
def lookupClaim (k : String) : Claims → Option ClaimVal
  | [] => none
  | (k', v) :: rest => if k' = k then some v else lookupClaim k rest

/-- Python dict update `d.update({k: v})`: replaces the value in place when
the key is present, appends otherwise. -/
def updateClaim (m : Claims) (k : String) (v : ClaimVal) : Claims :=
  match m with
  | [] => [(k, v)]
  | (k', v') :: rest =>
      if k' = k then (k, v) :: rest else (k', v') :: updateClaim rest k v

/-- Model of the HMAC signature jose computes over the protected header and
payload with the given key: a deterministic digest of key, algorithm and
claims. -/
def joseSignature (key : String) (alg : String) (payload : Claims) : Nat :=
  let strDigest : String → Nat :=
    fun s => (strBytes s).foldl (fun a b => a * 167 + b.toNat + 1) 7
  let valDigest : ClaimVal → Nat :=
    fun v =>
      match v with
      | ClaimVal.str s => 3 * strDigest s + 1
      | ClaimVal.num n => 3 * n.natAbs + (if n < 0 then 2 else 5)
      | ClaimVal.null => 0
  payload.foldl (fun a kv => a * 1009 + strDigest kv.1 * 31 + valDigest kv.2)
    (strDigest key * 13 + strDigest alg)

/-- Parsed shape of a compact JWT string: a structurally well-formed token
(header algorithm, payload, signature) or an unparseable string. -/
inductive TokenStr where
  | wf (alg : String) (payload : Claims) (sig : Nat)
  | malformed (raw : String)
  deriving DecidableEq, Repr

/-- `jose.jwt.encode(claims, key, algorithm)`: serializes and signs the
payload. -/
def joseEncode (payload : Claims) (key : String) (alg : String) : TokenStr :=
  TokenStr.wf alg payload (joseSignature key alg payload)

/-- Jose `_validate_iat`: an `iat` claim, when present, must be an
integer (`JWTClaimsError` otherwise); no time comparison is made. -/
def joseValidIat (payload : Claims) : Bool :=
  match lookupClaim "iat" payload with
  | none => true
  | some (ClaimVal.num _) => true
  | some _ => false

/-- Jose `_validate_nbf` with leeway 0: an `nbf` claim, when present, must
be an integer and not lie in the future (`nbf > now` raises). -/
def joseValidNbf (payload : Claims) (now : Int) : Bool :=
  match lookupClaim "nbf" payload with
  | none => true
  | some (ClaimVal.num n) => decide (n ≤ now)
  | some _ => false

/-- Jose `_validate_exp` with leeway 0: an `exp` claim, when present, must
be an integer and not lie strictly in the past (`exp < now` raises); a
payload with no `exp` claim is accepted. -/
def joseValidExp (payload : Claims) (now : Int) : Bool :=
  match lookupClaim "exp" payload with
  | none => true
  | some (ClaimVal.num e) => decide (¬ e < now)
  | some _ => false

/-- Jose `_validate_aud` with the default `audience=None`: any `aud` claim
present in the payload raises (an ill-formed `aud` raises the format
error, a well-formed one fails the `audience not in audience_claims`
membership test, `None` being a member of no list of strings). -/
def joseValidAud (payload : Claims) : Bool :=
  match lookupClaim "aud" payload with
  | none => true
  | some _ => false

/-- Jose `_validate_sub` with the default `subject=None`: a `sub` claim,
when present, must be a string. -/
def joseValidSub (payload : Claims) : Bool :=
  match lookupClaim "sub" payload with
  | none => true
  | some (ClaimVal.str _) => true
  | some _ => false

/-- Jose `_validate_jti`: a `jti` claim, when present, must be a string. -/
def joseValidJti (payload : Claims) : Bool :=
  match lookupClaim "jti" payload with
  | none => true
  | some (ClaimVal.str _) => true
  | some _ => false

/-- Jose `_validate_at_hash` with the default `access_token=None`: an
`at_hash` claim present with no access token to compare against raises. -/
def joseValidAtHash (payload : Claims) : Bool :=
  match lookupClaim "at_hash" payload with
  | none => true
  | some _ => false

/-- Jose `_validate_claims` under `jwt.decode`'s default options (all
`verify_*` on, `audience`/`issuer`/`subject`/`access_token` all `None`,
leeway 0): iat, nbf, exp, aud, sub, jti and at_hash are each validated;
`_validate_iss` checks nothing when `issuer` is `None`. -/
def joseValidateClaims (payload : Claims) (now : Int) : Bool :=
  joseValidIat payload && joseValidNbf payload now && joseValidExp payload now
    && joseValidAud payload && joseValidSub payload && joseValidJti payload
    && joseValidAtHash payload

/-- `jose.jwt.decode(token, key, algorithms)` at verification time `now`
(integer Unix seconds), with every `JWTError` mapped to `none`:
unparseable structure, a header algorithm outside the allowed list, a
signature mismatch, or any failure of the default claim validations
(`joseValidateClaims`). -/
def joseDecode (tk : TokenStr) (key : String) (algs : List String) (now : Int) :
    Option Claims :=
  match tk with
  | TokenStr.malformed _ => none
  | TokenStr.wf alg payload sig =>
      if alg ∉ algs then none
      else if sig ≠ joseSignature key alg payload then none
      else if joseValidateClaims payload now then some payload
      else none

/-- `create_access_token` from `app/utils/auth.py`: copies the claims,
computes the expiry from `expires_delta` (in seconds) when that timedelta
is truthy (present and nonzero) and from the configured default otherwise,
injects it as `exp`, and signs with the process key and algorithm.  `now`
is the current time in integer Unix seconds. -/
def create_access_token (data : Claims) (expires_delta : Option Int) (now : Int) :
    TokenStr :=
  let to_encode := data
  let expire : Int :=
    match expires_delta with
    | some d =>
        if d ≠ 0 then now + d
        else now + (ACCESS_TOKEN_EXPIRE_MINUTES : Int) * 60
    | none => now + (ACCESS_TOKEN_EXPIRE_MINUTES : Int) * 60
  let to_encode := updateClaim to_encode "exp" (ClaimVal.num expire)
  joseEncode to_encode SECRET_KEY ALGORITHM

/-- `decode_access_token` from `app/utils/auth.py`: decodes with the
process key and algorithm list, returning `none` for any `JWTError`. -/
def decode_access_token (token : TokenStr) (now : Int) : Option Claims :=
  joseDecode token SECRET_KEY [ALGORITHM] now

/-! ## User store (`app/models/user.py`, `app/crud/user.py`)

The ORM model `app/models/user.py` is absent from the sources; the record
shape is taken from `app/schemas/auth.py` (`UserResponse`) and the crud
code, and the storage constraints from the spec. -/

/-- Model of Python `str.lower()`: lowercases each character. -/
def pyLower (s : String) : String :=
  String.mk (s.data.map Char.toLower)

/-- A persisted user record (`User` ORM row). -/
structure User where
  id : Nat
  username : String
  email : String
  password_hash : HashStr
  is_active : Bool
  deriving DecidableEq, Repr

/-- Modelled from the spec: the relational store behind the SQLAlchemy
session, holding the user rows in insertion order plus the
autoincrement counter (`app/models/user.py` and `app/database.py` are
absent from the sources; the spec gives the store unique indexes on the
identity and the alternate key, enforced at write time). -/
structure DB where
  users : List User
  nextId : Nat
  deriving DecidableEq, Repr

/-- `sqlalchemy.exc.IntegrityError`: a uniqueness violation raised by the
storage layer when the committed write would duplicate a unique column. -/
inductive IntegrityError where
  | uniqueViolation
  deriving DecidableEq, Repr

/-- `get_user_by_email` from `app/crud/user.py`: first row whose email
column equals the query email normalized to lowercase. -/
def get_user_by_email (db : DB) (email : String) : Option User :=
  db.users.find? (fun u => u.email == pyLower email)

/-- `get_user_by_username` from `app/crud/user.py`: first row whose
username column equals the query username. -/
def get_user_by_username (db : DB) (username : String) : Option User :=
  db.users.find? (fun u => u.username == username)

/-- `get_user_by_id` from `app/crud/user.py`: first row with the given
primary key. -/
def get_user_by_id (db : DB) (user_id : Nat) : Option User :=
  db.users.find? (fun u => u.id == user_id)

/-- An exception escaping `create_user`: the `PasslibError` raised while
hashing the password, or the `IntegrityError` raised by the commit. -/
inductive CrudError where
  | passlib (e : PasslibError)
  | integrity (e : IntegrityError)
  deriving DecidableEq, Repr

/-- `create_user` from `app/crud/user.py`: hashes the password (a passlib
exception propagates), lowercases the email, adds the row and commits.
The commit enforces the unique indexes on email and username (modelled
from the spec, the ORM model being absent): a duplicate raises
`IntegrityError` and persists nothing. -/
def create_user (db : DB) (username : String) (email : String)
    (password : String) (salt : Nat) : Except CrudError (DB × User) :=
  match get_password_hash password salt with
  | Except.error e => Except.error (CrudError.passlib e)
  | Except.ok password_hash =>
    let db_user : User :=
      { id := db.nextId
        username := username
        email := pyLower email
        password_hash := password_hash
        is_active := true }
    if db.users.any (fun u => u.email == db_user.email || u.username == username) then
      Except.error (CrudError.integrity IntegrityError.uniqueViolation)
    else
      Except.ok ({ users := db.users ++ [db_user], nextId := db.nextId + 1 }, db_user)

/-! ## HTTP layer types (`fastapi`, `app/schemas/auth.py`) -/

/-- A raised `fastapi.HTTPException`: status code, detail message and extra
response headers. -/
structure HTTPError where
  status : Nat
  detail : String
  headers : List (String × String)
  deriving DecidableEq, Repr

/-- The `Token` response schema from `app/schemas/auth.py`. -/
structure Token where
  access_token : TokenStr
  token_type : String
  deriving DecidableEq, Repr

/-- Request body of `register` (`UserCreate` schema). -/
structure UserCreate where
  username : String
  email : String
  password : String
  deriving DecidableEq, Repr

/-- Request body of `login` (`UserLogin` schema). -/
structure UserLogin where
  email : String
  password : String
  deriving DecidableEq, Repr

/-! ## Route handlers (`app/routers/auth.py`, `app/dependencies/auth.py`) -/

/-- The `register` handler of `app/routers/auth.py`, with the pre-check
phase and the write phase taken against two store snapshots: `db` is the
state the duplicate pre-checks read, `dbWrite` the state at the moment of
the persistence call.  A concurrent interleaving can make them differ; the
sequential execution is `register`, where they coincide.  The result pairs
the post-state of the store with the response: the created row, or the
raised `HTTPException`.  The `try` block catches only `IntegrityError`,
rolling the session back (leaving the store at `dbWrite`) and answering
409; a `PasslibError` raised while hashing is uncaught and propagates out
of the handler. -/
def registerAt (user_data : UserCreate) (db dbWrite : DB) (salt : Nat) :
    Except PasslibError (DB × Except HTTPError User) :=
  match get_user_by_email db user_data.email with
  | some _ =>
      Except.ok (dbWrite, Except.error
        { status := 409, detail := "Email already registered", headers := [] })
  | none =>
  match get_user_by_username db user_data.username with
  | some _ =>
      Except.ok (dbWrite, Except.error
        { status := 409, detail := "Username already taken", headers := [] })
  | none =>
  match create_user dbWrite user_data.username user_data.email user_data.password salt with
  | Except.ok (db', user) => Except.ok (db', Except.ok user)
  | Except.error (CrudError.integrity _) =>
      Except.ok (dbWrite, Except.error
        { status := 409, detail := "User already exists", headers := [] })
  | Except.error (CrudError.passlib e) => Except.error e

/-- The `register` handler of `app/routers/auth.py` in a sequential
execution: the pre-checks and the write see the same store state. -/
def register (user_data : UserCreate) (db : DB) (salt : Nat) :
    Except PasslibError (DB × Except HTTPError User) :=
  registerAt user_data db db salt

/-- The 401 response raised by both failure branches of `login`. -/
def loginUnauthorized : HTTPError :=
  { status := 401
    detail := "Incorrect email or password"
    headers := [("WWW-Authenticate", "Bearer")] }

/-- The `login` handler of `app/routers/auth.py`: looks the user up by
email, verifies the password (a `PasslibError` raised there propagates out
of the handler), and on success issues a bearer token for the stored email
with the configured expiry.  `now` is the current time in integer Unix
seconds. -/
def login (user_data : UserLogin) (db : DB) (now : Int) :
    Except PasslibError (Except HTTPError Token) :=
  match get_user_by_email db user_data.email with
  | none => Except.ok (Except.error loginUnauthorized)
  | some user =>
    match verify_password user_data.password user.password_hash with
    | Except.error e => Except.error e
    | Except.ok false => Except.ok (Except.error loginUnauthorized)
    | Except.ok true =>
        let access_token := create_access_token
          [("sub", ClaimVal.str user.email)]
          (some ((ACCESS_TOKEN_EXPIRE_MINUTES : Int) * 60)) now
        Except.ok (Except.ok { access_token := access_token, token_type := "bearer" })

/-- The 401 `credentials_exception` of `get_current_user`. -/
def credentialsException : HTTPError :=
  { status := 401
    detail := "Could not validate credentials"
    headers := [("WWW-Authenticate", "Bearer")] }

/-- Failure modes of `get_current_user`: a raised `HTTPException`, or a
pydantic `ValidationError` escaping `TokenData(email=...)` when the `sub`
claim is present but neither a string nor null. -/
inductive AuthFailure where
  | http (e : HTTPError)
  | validationError
  deriving DecidableEq, Repr

/-- `get_current_user` from `app/dependencies/auth.py`: decodes the token
(`none` raises the credentials exception), reads `payload.get("sub")` (a
missing key and a JSON null both give Python `None`, raising the
credentials exception), wraps it in `TokenData`, looks the user up by that
email, and raises the credentials exception when no row matches. -/
def get_current_user (token : TokenStr) (db : DB) (now : Int) :
    Except AuthFailure User :=
  match decode_access_token token now with
  | none => Except.error (AuthFailure.http credentialsException)
  | some payload =>
    match lookupClaim "sub" payload with
    | none => Except.error (AuthFailure.http credentialsException)
    | some ClaimVal.null => Except.error (AuthFailure.http credentialsException)
    | some (ClaimVal.num _) => Except.error AuthFailure.validationError
    | some (ClaimVal.str email) =>
      match get_user_by_email db email with
      | none => Except.error (AuthFailure.http credentialsException)
      | some user => Except.ok user

deriving instance DecidableEq for Except

set_option maxRecDepth 100000

/-! ## Helper lemmas -/

/-- The passlib context verifies a NUL-free password against the bcrypt
record it produces for it. -/
theorem pwdContextVerify_bcrypt_self (s : String) (salt : Nat)
    (h : containsNul s = false) :
    pwdContextVerify s (HashStr.bcrypt salt (bcryptDigest salt s))
      = Except.ok true := by
  simp [pwdContextVerify, h]

/-- Looking up the key just written by a dict update yields the written
value. -/
theorem lookupClaim_updateClaim_self (m : Claims) (k : String) (v : ClaimVal) :
    lookupClaim k (updateClaim m k v) = some v := by
  induction m with
  | nil => simp [updateClaim, lookupClaim]
  | cons kv rest ih =>
      obtain ⟨k₀, v₀⟩ := kv
      by_cases h : k₀ = k
      · subst h
        simp [updateClaim, lookupClaim]
      · simp [updateClaim, lookupClaim, h, ih]

/-- A dict update at one key leaves lookups at a different key unchanged. -/
theorem lookupClaim_updateClaim_ne (m : Claims) (k k₂ : String) (v : ClaimVal)
    (h : k ≠ k₂) : lookupClaim k (updateClaim m k₂ v) = lookupClaim k m := by
  induction m with
  | nil => simp [updateClaim, lookupClaim, Ne.symm h]
  | cons kv rest ih =>
      obtain ⟨k₀, v₀⟩ := kv
      by_cases h₀ : k₀ = k₂
      · subst h₀
        simp [updateClaim, lookupClaim, Ne.symm h]
      · simp only [updateClaim, if_neg h₀, lookupClaim]
        by_cases h₁ : k₀ = k
        · simp [h₁]
        · simp [h₁, ih]

/-- When no element of the left list satisfies the predicate, `find?` over
an append searches the right list. -/
theorem find?_append_of_none {α : Type} (l₁ l₂ : List α) (p : α → Bool)
    (h : l₁.find? p = none) : (l₁ ++ l₂).find? p = l₂.find? p := by
  induction l₁ with
  | nil => rfl
  | cons a t ih =>
      rw [List.find?_cons] at h
      cases hp : p a with
      | true => simp [hp] at h
      | false =>
          rw [hp] at h
          simpa [List.find?_cons, hp] using ih h

/-! ## Claim theorems -/

/-- C1 counterexample: for the one-character secret consisting of a NUL
byte, hashing does not produce a hash at all — the bcrypt handler raises
`NullPasswordError` — and verifying such a secret against any well-formed
bcrypt hash raises likewise, so `verify_password s (get_password_hash s)`
raises instead of returning true for this `s`. -/
theorem C1_nul_secret_counterexample :
    get_password_hash (String.mk [Char.ofNat 0]) 0
        = Except.error PasslibError.nullPasswordError
    ∧ pwdContextVerify (String.mk [Char.ofNat 0]) (HashStr.bcrypt 0 1)
        = Except.error PasslibError.nullPasswordError := by
  decide

/-- C1 (amended): for every secret string `s` whose UTF-8 encoding
contains no NUL byte (and every salt the context draws), hashing succeeds
and verifying `s` against the hash freshly produced from `s` returns true;
for secrets containing a NUL byte, both hashing and verification raise
passlib `NullPasswordError`. -/
theorem C1_verify_password_of_fresh_hash (s : String) (salt : Nat)
    (h : containsNul s = false) :
    get_password_hash s salt
        = Except.ok (HashStr.bcrypt salt (bcryptDigest salt s))
    ∧ verify_password s (HashStr.bcrypt salt (bcryptDigest salt s))
        = Except.ok true := by
  constructor
  · simp [get_password_hash, pwdContextHash, h]
  · simpa [verify_password] using pwdContextVerify_bcrypt_self s salt h

/-- C1 witness: the round-trip at the concrete NUL-free secret
`securepassword123` and salt 5. -/
theorem C1_verify_password_of_fresh_hash_witness :
    get_password_hash "securepassword123" 5
        = Except.ok (HashStr.bcrypt 5 (bcryptDigest 5 "securepassword123"))
    ∧ verify_password "securepassword123"
        (HashStr.bcrypt 5 (bcryptDigest 5 "securepassword123"))
        = Except.ok true :=
  C1_verify_password_of_fresh_hash "securepassword123" 5 (by decide)

/-- C2 counterexample: the claims map carrying only `aud = "x"` issues
fine, but immediate verification rejects the token — `_validate_aud` with
no expected audience fails on any `aud` claim — so `decode_access_token`
returns `none`, not the input claims plus the injected expiry. -/
theorem C2_aud_claim_counterexample :
    decode_access_token
        (create_access_token [("aud", ClaimVal.str "x")] (some 60) 0) 0 = none
    ∧ decode_access_token
        (create_access_token [("aud", ClaimVal.str "x")] (some 60) 0) 0
      ≠ some (updateClaim [("aud", ClaimVal.str "x")] "exp" (ClaimVal.num 60)) := by
  decide

/-- C2 (amended): for every claims map that passes jose's default claim
validations at verification time — any `iat` an integer, any `nbf` an
integer not in the future, no `aud` claim, any `sub` a string, any `jti` a
string, no `at_hash` claim — and every positive ttl (in seconds), issuing
a token and immediately verifying it round-trips: the decoded payload is
the input claims plus the injected `exp`, and the `sub` claim of the
decoded payload equals the input `sub` claim. -/
theorem C2_issue_then_verify_roundtrip (data : Claims) (ttl now : Int)
    (h : 0 < ttl)
    (hiat : joseValidIat data = true)
    (hnbf : joseValidNbf data now = true)
    (haud : joseValidAud data = true)
    (hsub : joseValidSub data = true)
    (hjti : joseValidJti data = true)
    (hath : joseValidAtHash data = true) :
    decode_access_token (create_access_token data (some ttl) now) now
      = some (updateClaim data "exp" (ClaimVal.num (now + ttl)))
    ∧ lookupClaim "sub" (updateClaim data "exp" (ClaimVal.num (now + ttl)))
      = lookupClaim "sub" data := by
  have hupd : ∀ k : String, k ≠ "exp" →
      lookupClaim k (updateClaim data "exp" (ClaimVal.num (now + ttl)))
        = lookupClaim k data :=
    fun k hk => lookupClaim_updateClaim_ne data k "exp" _ hk
  constructor
  · have httl : ttl ≠ 0 := by omega
    have hIat : joseValidIat (updateClaim data "exp" (ClaimVal.num (now + ttl)))
        = true := by
      unfold joseValidIat
      rw [hupd "iat" (by decide)]
      unfold joseValidIat at hiat
      exact hiat
    have hNbf : joseValidNbf (updateClaim data "exp" (ClaimVal.num (now + ttl))) now
        = true := by
      unfold joseValidNbf
      rw [hupd "nbf" (by decide)]
      unfold joseValidNbf at hnbf
      exact hnbf
    have hAud : joseValidAud (updateClaim data "exp" (ClaimVal.num (now + ttl)))
        = true := by
      unfold joseValidAud
      rw [hupd "aud" (by decide)]
      unfold joseValidAud at haud
      exact haud
    have hSub : joseValidSub (updateClaim data "exp" (ClaimVal.num (now + ttl)))
        = true := by
      unfold joseValidSub
      rw [hupd "sub" (by decide)]
      unfold joseValidSub at hsub
      exact hsub
    have hJti : joseValidJti (updateClaim data "exp" (ClaimVal.num (now + ttl)))
        = true := by
      unfold joseValidJti
      rw [hupd "jti" (by decide)]
      unfold joseValidJti at hjti
      exact hjti
    have hAtH : joseValidAtHash (updateClaim data "exp" (ClaimVal.num (now + ttl)))
        = true := by
      unfold joseValidAtHash
      rw [hupd "at_hash" (by decide)]
      unfold joseValidAtHash at hath
      exact hath
    have hExp : joseValidExp (updateClaim data "exp" (ClaimVal.num (now + ttl))) now
        = true := by
      unfold joseValidExp
      rw [lookupClaim_updateClaim_self]
      simp only [decide_eq_true_eq]
      omega
    have hvalid : joseValidateClaims
        (updateClaim data "exp" (ClaimVal.num (now + ttl))) now = true := by
      unfold joseValidateClaims
      rw [hIat, hNbf, hExp, hAud, hSub, hJti, hAtH]
      rfl
    simp [decode_access_token, create_access_token, joseEncode, joseDecode, httl,
      hvalid]
  · exact hupd "sub" (by decide)

/-- C2 witness: the round-trip at a concrete claims map carrying a string
`sub`, ttl 60 seconds, issue time 0. -/
theorem C2_issue_then_verify_roundtrip_witness :
    (0 : Int) < 60
    ∧ (decode_access_token
          (create_access_token [("sub", ClaimVal.str "a@x.com")] (some 60) 0) 0
        = some (updateClaim [("sub", ClaimVal.str "a@x.com")] "exp"
            (ClaimVal.num (0 + 60)))
      ∧ lookupClaim "sub" (updateClaim [("sub", ClaimVal.str "a@x.com")] "exp"
            (ClaimVal.num (0 + 60)))
        = lookupClaim "sub" [("sub", ClaimVal.str "a@x.com")]) :=
  ⟨by decide, C2_issue_then_verify_roundtrip [("sub", ClaimVal.str "a@x.com")] 60 0
    (by decide) (by decide) (by decide) (by decide) (by decide) (by decide)
    (by decide)⟩

/-- C3 counterexample: a token whose expiry equals the verification time
is not rejected.  The token is issued at time 99 with ttl 1 second, so its
`exp` claim is 100; decoding at time 100 (expiry at the verification time)
returns the payload, not the Invalid result `none`. -/
theorem C3_expiry_at_now_counterexample :
    decode_access_token
        (create_access_token [("sub", ClaimVal.str "a@x.com")] (some 1) 99) 100
      = some [("sub", ClaimVal.str "a@x.com"), ("exp", ClaimVal.num 100)] := by
  decide

/-- C3 (amended): `decode_access_token` returns the Invalid result `none`,
raising nothing, for every token that is structurally malformed, carries a
header algorithm other than the configured one, has a signature mismatch,
or has an expiry strictly before the verification time; in particular a
token issued with ttl minus one second is Invalid from its issue time on. -/
theorem C3_decode_rejects_invalid_tokens (now : Int) :
    (∀ raw, decode_access_token (TokenStr.malformed raw) now = none)
    ∧ (∀ alg payload sig, alg ≠ ALGORITHM →
        decode_access_token (TokenStr.wf alg payload sig) now = none)
    ∧ (∀ alg payload sig, sig ≠ joseSignature SECRET_KEY alg payload →
        decode_access_token (TokenStr.wf alg payload sig) now = none)
    ∧ (∀ alg payload sig e, lookupClaim "exp" payload = some (ClaimVal.num e) →
        e < now → decode_access_token (TokenStr.wf alg payload sig) now = none)
    ∧ (∀ data issuedAt, issuedAt ≤ now →
        decode_access_token (create_access_token data (some (-1)) issuedAt) now
          = none) := by
  refine ⟨fun raw => rfl, ?_, ?_, ?_, ?_⟩
  · intro alg payload sig halg
    simp [decode_access_token, joseDecode, halg]
  · intro alg payload sig hsig
    by_cases halg : alg = ALGORITHM
    · subst halg
      simp [decode_access_token, joseDecode, hsig]
    · simp [decode_access_token, joseDecode, halg]
  · intro alg payload sig e hexp hlt
    have hExp : joseValidExp payload now = false := by
      unfold joseValidExp
      rw [hexp]
      simp [hlt]
    have hval : joseValidateClaims payload now = false := by
      unfold joseValidateClaims
      rw [hExp]
      simp
    simp [decode_access_token, joseDecode, hval]
  · intro data issuedAt hle
    have hlt : issuedAt + (-1) < now := by omega
    have hExp : joseValidExp (updateClaim data "exp"
        (ClaimVal.num (issuedAt + (-1)))) now = false := by
      unfold joseValidExp
      rw [lookupClaim_updateClaim_self]
      simp [hlt]
    have hval : joseValidateClaims (updateClaim data "exp"
        (ClaimVal.num (issuedAt + (-1)))) now = false := by
      unfold joseValidateClaims
      rw [hExp]
      simp
    simp [decode_access_token, create_access_token, joseEncode, joseDecode, hval]

/-- C3 witness: each rejected shape at a concrete input — an unparseable
token, an unexpected header algorithm, a wrong signature, a token already
expired at verification time 0, and a token issued at time 0 with ttl
minus one second. -/
theorem C3_decode_rejects_invalid_tokens_witness :
    decode_access_token (TokenStr.malformed "x") 0 = none
    ∧ decode_access_token (TokenStr.wf "none" [] 0) 0 = none
    ∧ decode_access_token (TokenStr.wf ALGORITHM [] 0) 0 = none
    ∧ decode_access_token
        (TokenStr.wf ALGORITHM [("exp", ClaimVal.num (-5))] 0) 0 = none
    ∧ decode_access_token (create_access_token [] (some (-1)) 0) 0 = none :=
  ⟨(C3_decode_rejects_invalid_tokens 0).1 "x",
   (C3_decode_rejects_invalid_tokens 0).2.1 "none" [] 0 (by decide),
   (C3_decode_rejects_invalid_tokens 0).2.2.1 ALGORITHM [] 0 (by decide),
   (C3_decode_rejects_invalid_tokens 0).2.2.2.1 ALGORITHM
     [("exp", ClaimVal.num (-5))] 0 (-5) (by decide) (by decide),
   (C3_decode_rejects_invalid_tokens 0).2.2.2.2 [] 0 (by decide)⟩

/-- C4: login against a store with no record for the identity and login
against a store whose record for the identity carries a hash the supplied
secret does not verify raise the identical `Unauthorized` failure: the same
401 status and the same message payload in both cases. -/
theorem C4_login_failures_indistinguishable (db₁ db₂ : DB) (i s : String)
    (u : User) (now₁ now₂ : Int)
    (h₁ : get_user_by_email db₁ i = none)
    (h₂ : get_user_by_email db₂ i = some u)
    (h₃ : verify_password s u.password_hash = Except.ok false) :
    login { email := i, password := s } db₁ now₁
      = Except.ok (Except.error loginUnauthorized)
    ∧ login { email := i, password := s } db₂ now₂
      = Except.ok (Except.error loginUnauthorized)
    ∧ loginUnauthorized.status = 401 := by
  refine ⟨?_, ?_, rfl⟩
  · simp [login, h₁]
  · simp [login, h₂, h₃]

/-- C4 witness: the unregistered identity `bob@x.com` against the empty
store, and the registered identity `bob@x.com` with the wrong secret
`wrongpass1` against a one-user store, both yield the same 401. -/
theorem C4_login_failures_indistinguishable_witness :
    login { email := "bob@x.com", password := "wrongpass1" } ⟨[], 0⟩ 0
      = Except.ok (Except.error loginUnauthorized)
    ∧ login { email := "bob@x.com", password := "wrongpass1" }
        ⟨[⟨1, "bob", "bob@x.com", HashStr.bcrypt 5 (bcryptDigest 5 "rightpass1"), true⟩], 2⟩ 0
      = Except.ok (Except.error loginUnauthorized)
    ∧ loginUnauthorized.status = 401 :=
  C4_login_failures_indistinguishable ⟨[], 0⟩
    ⟨[⟨1, "bob", "bob@x.com", HashStr.bcrypt 5 (bcryptDigest 5 "rightpass1"), true⟩], 2⟩
    "bob@x.com" "wrongpass1"
    ⟨1, "bob", "bob@x.com", HashStr.bcrypt 5 (bcryptDigest 5 "rightpass1"), true⟩ 0 0
    (by decide) (by decide) (by decide)

/-- C5 counterexample: on a malformed hash string, `verify_password` does
not return false — it raises the passlib `UnknownHashError` instead, which
propagates out of the function. -/
theorem C5_malformed_hash_counterexample :
    verify_password "x" (HashStr.malformed "notahash")
        = Except.error PasslibError.unknownHashError
    ∧ verify_password "x" (HashStr.malformed "notahash") ≠ Except.ok false := by
  decide

/-- C5 (amended): for every secret string and every malformed hash string,
`verify_password` raises passlib `UnknownHashError` (a `ValueError`) rather
than returning false. -/
theorem C5_verify_password_malformed_hash_raises (s raw : String) :
    verify_password s (HashStr.malformed raw)
      = Except.error PasslibError.unknownHashError := rfl

/-- C6: when both the email and the username of a registration request
collide with existing records, `register` reports the email conflict: the
email-duplicate check runs first and its 409 is returned before the
username-duplicate check is reached. -/
theorem C6_register_reports_email_conflict_first (u : UserCreate) (db : DB)
    (salt : Nat) (r₁ r₂ : User)
    (h₁ : get_user_by_email db u.email = some r₁)
    (h₂ : get_user_by_username db u.username = some r₂) :
    register u db salt
      = Except.ok (db, Except.error
          { status := 409, detail := "Email already registered", headers := [] }) := by
  simp [register, registerAt, h₁]

/-- C6 witness: a request whose email and username both collide with the
stored user is answered with the email conflict. -/
theorem C6_register_reports_email_conflict_first_witness :
    register ⟨"bob", "A@X.com", "different1"⟩
        ⟨[⟨1, "bob", "a@x.com", HashStr.bcrypt 5 (bcryptDigest 5 "password123"), true⟩], 2⟩ 7
      = Except.ok
          (⟨[⟨1, "bob", "a@x.com", HashStr.bcrypt 5 (bcryptDigest 5 "password123"), true⟩], 2⟩,
           Except.error
            { status := 409, detail := "Email already registered", headers := [] }) :=
  C6_register_reports_email_conflict_first ⟨"bob", "A@X.com", "different1"⟩
    ⟨[⟨1, "bob", "a@x.com", HashStr.bcrypt 5 (bcryptDigest 5 "password123"), true⟩], 2⟩ 7
    ⟨1, "bob", "a@x.com", HashStr.bcrypt 5 (bcryptDigest 5 "password123"), true⟩
    ⟨1, "bob", "a@x.com", HashStr.bcrypt 5 (bcryptDigest 5 "password123"), true⟩
    (by decide) (by decide)

/-- C7: identity normalization at write time and at every read-time
lookup: a successful `create_user` stores the lowercased email, and
`get_user_by_email` finds that record for every case variant of the email,
so a subsequent `login` with any case variant of the identity (and the
registered password) succeeds with a token for the stored identity. -/
theorem C7_identity_normalized_at_write_and_read (db db' : DB)
    (un em pw e' : String) (salt : Nat) (u : User) (now : Int)
    (hc : create_user db un em pw salt = Except.ok (db', u))
    (he : pyLower e' = pyLower em) :
    u.email = pyLower em
    ∧ get_user_by_email db' e' = some u
    ∧ login { email := e', password := pw } db' now
        = Except.ok (Except.ok
            { access_token := create_access_token
                [("sub", ClaimVal.str (pyLower em))]
                (some ((ACCESS_TOKEN_EXPIRE_MINUTES : Int) * 60)) now
              token_type := "bearer" }) := by
  unfold create_user at hc
  split at hc
  · exact absurd hc (by simp)
  · rename_i ph heq
    unfold get_password_hash pwdContextHash at heq
    by_cases hNul : containsNul pw = true
    · rw [if_pos hNul] at heq
      cases heq
    · rw [if_neg hNul] at heq
      rw [Bool.not_eq_true] at hNul
      obtain rfl : ph = HashStr.bcrypt salt (bcryptDigest salt pw) :=
        (Except.ok.injEq _ _).mp heq.symm
      by_cases hb : db.users.any
          (fun r => r.email == pyLower em || r.username == un) = true
      · rw [if_pos hb] at hc
        cases hc
      · rw [if_neg hb] at hc
        simp only [Except.ok.injEq, Prod.mk.injEq] at hc
        obtain ⟨hdb, hu⟩ := hc
        have hnone : db.users.find? (fun r => r.email == pyLower e') = none := by
          rw [List.find?_eq_none]
          intro x hx hpx
          apply hb
          rw [List.any_eq_true]
          refine ⟨x, hx, ?_⟩
          rw [he] at hpx
          simp [hpx]
        have hfind : get_user_by_email db' e' = some u := by
          rw [← hdb, ← hu]
          simp only [get_user_by_email]
          rw [find?_append_of_none _ _ _ hnone]
          simp [List.find?_cons, he]
        refine ⟨by rw [← hu], hfind, ?_⟩
        have hverify : verify_password pw u.password_hash = Except.ok true := by
          rw [← hu]
          simpa [verify_password] using pwdContextVerify_bcrypt_self pw salt hNul
        have hemail : u.email = pyLower em := by rw [← hu]
        simp [login, hfind, hverify, hemail]

/-- C7 witness: registering `Bob@X.com` stores `bob@x.com`, which a lookup
and a login with the case variant `BOB@x.COM` both find. -/
theorem C7_identity_normalized_at_write_and_read_witness :
    (⟨1, "bob", "bob@x.com", HashStr.bcrypt 3 (bcryptDigest 3 "longenough1"), true⟩ : User).email
      = pyLower "Bob@X.com"
    ∧ get_user_by_email
        ⟨[⟨1, "bob", "bob@x.com", HashStr.bcrypt 3 (bcryptDigest 3 "longenough1"), true⟩], 2⟩
        "BOB@x.COM"
      = some ⟨1, "bob", "bob@x.com", HashStr.bcrypt 3 (bcryptDigest 3 "longenough1"), true⟩
    ∧ login { email := "BOB@x.COM", password := "longenough1" }
        ⟨[⟨1, "bob", "bob@x.com", HashStr.bcrypt 3 (bcryptDigest 3 "longenough1"), true⟩], 2⟩ 0
        = Except.ok (Except.ok
            { access_token := create_access_token
                [("sub", ClaimVal.str (pyLower "Bob@X.com"))]
                (some ((ACCESS_TOKEN_EXPIRE_MINUTES : Int) * 60)) 0
              token_type := "bearer" }) :=
  C7_identity_normalized_at_write_and_read ⟨[], 1⟩
    ⟨[⟨1, "bob", "bob@x.com", HashStr.bcrypt 3 (bcryptDigest 3 "longenough1"), true⟩], 2⟩
    "bob" "Bob@X.com" "longenough1" "BOB@x.COM" 3
    ⟨1, "bob", "bob@x.com", HashStr.bcrypt 3 (bcryptDigest 3 "longenough1"), true⟩ 0
    (by decide) (by decide)

/-- C8: a token that decodes successfully but whose `sub` has no record in
the store (the account was deleted after issuance) is rejected by
`get_current_user` with the 401 credentials exception, not answered with a
user. -/
theorem C8_authenticate_deleted_subject (tk : TokenStr) (db : DB) (now : Int)
    (p : Claims) (s : String)
    (h₁ : decode_access_token tk now = some p)
    (h₂ : lookupClaim "sub" p = some (ClaimVal.str s))
    (h₃ : get_user_by_email db s = none) :
    get_current_user tk db now = Except.error (AuthFailure.http credentialsException)
    ∧ credentialsException.status = 401 := by
  refine ⟨?_, rfl⟩
  simp [get_current_user, h₁, h₂, h₃]

/-- C8 witness: a fresh token for subject `gone@x.com`, verified against
the empty store at its issue time, is rejected with the 401. -/
theorem C8_authenticate_deleted_subject_witness :
    get_current_user
        (create_access_token [("sub", ClaimVal.str "gone@x.com")] (some 60) 0)
        ⟨[], 0⟩ 0
      = Except.error (AuthFailure.http credentialsException)
    ∧ credentialsException.status = 401 :=
  C8_authenticate_deleted_subject
    (create_access_token [("sub", ClaimVal.str "gone@x.com")] (some 60) 0)
    ⟨[], 0⟩ 0
    [("sub", ClaimVal.str "gone@x.com"), ("exp", ClaimVal.num 60)] "gone@x.com"
    (by decide) (by decide) (by decide)

/-- C9: when the pre-checks pass but the storage layer raises a uniqueness
violation on the write (a concurrent registration raced past the checks),
`register` rolls the session back — the store is left exactly at its
write-time state, with no partial record — and the failure is surfaced as
the 409 Conflict response, not as a crash. -/
theorem C9_register_write_race_conflict (u : UserCreate) (db dbWrite : DB)
    (salt : Nat)
    (h₁ : get_user_by_email db u.email = none)
    (h₂ : get_user_by_username db u.username = none)
    (h₃ : create_user dbWrite u.username u.email u.password salt
            = Except.error (CrudError.integrity IntegrityError.uniqueViolation)) :
    registerAt u db dbWrite salt
      = Except.ok (dbWrite, Except.error
          { status := 409, detail := "User already exists", headers := [] }) := by
  simp [registerAt, h₁, h₂, h₃]

/-- C9 witness: pre-checks read the empty store, but at write time a racing
registration has already stored `a@x.com`; the write raises the uniqueness
violation and `register` answers 409 leaving the store unchanged. -/
theorem C9_register_write_race_conflict_witness :
    registerAt ⟨"bob", "a@x.com", "password123"⟩ ⟨[], 0⟩
        ⟨[⟨1, "eve", "a@x.com", HashStr.bcrypt 3 (bcryptDigest 3 "password456"), true⟩], 2⟩ 7
      = Except.ok
          (⟨[⟨1, "eve", "a@x.com", HashStr.bcrypt 3 (bcryptDigest 3 "password456"), true⟩], 2⟩,
           Except.error
            { status := 409, detail := "User already exists", headers := [] }) :=
  C9_register_write_race_conflict ⟨"bob", "a@x.com", "password123"⟩ ⟨[], 0⟩
    ⟨[⟨1, "eve", "a@x.com", HashStr.bcrypt 3 (bcryptDigest 3 "password456"), true⟩], 2⟩ 7
    (by decide) (by decide) (by decide)

/-- C10: a validly-signed, unexpired token whose decoded payload lacks a
`sub` claim, or carries `sub` as JSON null, is rejected by
`get_current_user` with exactly the 401 credentials exception used for
invalid tokens. -/
theorem C10_authenticate_missing_sub (tk : TokenStr) (db : DB) (now : Int)
    (p : Claims)
    (h₁ : decode_access_token tk now = some p)
    (h₂ : lookupClaim "sub" p = none ∨ lookupClaim "sub" p = some ClaimVal.null) :
    get_current_user tk db now = Except.error (AuthFailure.http credentialsException)
    ∧ get_current_user (TokenStr.malformed "") db now
        = Except.error (AuthFailure.http credentialsException) := by
  refine ⟨?_, rfl⟩
  rcases h₂ with h₂ | h₂ <;> simp [get_current_user, h₁, h₂]

/-- C10 witness: a fresh validly-signed token carrying only the injected
`exp` claim (no `sub`) is rejected with the same 401 as an unparseable
token. -/
theorem C10_authenticate_missing_sub_witness :
    get_current_user (create_access_token [] (some 60) 0) ⟨[], 0⟩ 0
      = Except.error (AuthFailure.http credentialsException)
    ∧ get_current_user (TokenStr.malformed "") ⟨[], 0⟩ 0
        = Except.error (AuthFailure.http credentialsException) :=
  C10_authenticate_missing_sub (create_access_token [] (some 60) 0) ⟨[], 0⟩ 0
    [("exp", ClaimVal.num 60)] (by decide) (Or.inl (by decide))

end Module51
